import Mathlib

/-!
Shallow embedding of the SkyShield air-quality pipeline
(`src/final.py`, the North-America variant, and `src/unnamed/part_000`,
the Indonesia variant).  Numeric values are modelled as exact rationals;
provider responses are modelled as explicit data, and network calls as an
outcome parameter (a status/body pair, a transport failure, or another
exception).  Logging, timestamps and CSV export are omitted: they do not
affect the measurement data the claims speak about.
-/

namespace SkyShield

/-- One entry of a `HEALTH_THRESHOLDS` table: the GOOD / MODERATE / BAD
boundaries, the units string, and the three description strings. -/
structure Thresholds where
  good : ℚ
  moderate : ℚ
  bad : ℚ
  units : String
  good_desc : String
  moderate_desc : String
  bad_desc : String
  deriving DecidableEq, Repr

/-- A measurement dict as built by the adapters.  `aqi` models the optional
`'aqi'` key carried by index-derived PM2.5 entries. -/
structure Measurement where
  pollutant : String
  value : ℚ
  units : String
  source : String
  rating : String
  indicator : String
  description : String
  aqi : Option ℚ := none
  deriving DecidableEq, Repr

/-- The body of `get_health_rating`, parameterised by the module-level
`HEALTH_THRESHOLDS` table of the variant in question (both source files
define the identical function over different tables). -/
def get_health_rating (tbl : String → Option Thresholds)
    (pollutant_type : String) (value : ℚ) : String × String × String :=
  match tbl pollutant_type with
  | none => ("UNKNOWN", "[?]", "No rating available")
  | some thresholds =>
    if value ≤ thresholds.good then ("GOOD", "[G]", thresholds.good_desc)
    else if value ≤ thresholds.moderate then
      ("MODERATE", "[M]", thresholds.moderate_desc)
    else if value ≤ thresholds.bad then
      ("UNHEALTHY", "[U]", thresholds.bad_desc)
    else ("VERY UNHEALTHY", "[VU]", "Dangerous pollution levels")

/-- The `"UNITS"` lookup `HEALTH_THRESHOLDS[p]["UNITS"]` used by the
adapters (only reached for keys present in the table). -/
def units_of (tbl : String → Option Thresholds) (p : String) : String :=
  match tbl p with
  | some t => t.units
  | none => ""

/-- The recurring adapter pattern
`rating, indicator, description = get_health_rating(poll, v)` followed by a
dict literal carrying `poll`, `v`, the units, the source and the three
returned components. -/
def rated (tbl : String → Option Thresholds) (poll : String) (v : ℚ)
    (us src : String) (raw : Option ℚ := none) : Measurement :=
  { pollutant := poll, value := v, units := us, source := src,
    rating := (get_health_rating tbl poll v).1,
    indicator := (get_health_rating tbl poll v).2.1,
    description := (get_health_rating tbl poll v).2.2,
    aqi := raw }

/-- Python truthiness of an optional numeric JSON field (`None`, `0` and
`0.0` are falsy; every other number is truthy). -/
def truthy : Option ℚ → Bool
  | none => false
  | some v => v != 0

/-- The `current.pollution` object of an IQAir response; absent keys are
`none`. -/
structure Pollution where
  aqius : Option ℚ := none
  o3 : Option ℚ := none
  no2 : Option ℚ := none
  so2 : Option ℚ := none
  co : Option ℚ := none
  deriving DecidableEq, Repr

/-- An IQAir response body: `hasData` models the
`'data' in data and 'current' in data['data']` guard, `city` the
`data['data']['city']` field used by the Indonesia variant. -/
structure IQAirResponse where
  hasData : Bool
  pollution : Pollution := {}
  city : String := ""
  deriving DecidableEq, Repr

/-- Outcome of one HTTP fetch: a response with a status code and parsed
body, a `requests` transport failure, or any other exception raised before
the status check. -/
inductive Fetch (α : Type) where
  | response (status : ℕ) (body : α)
  | network_error
  | unexpected_error
  deriving DecidableEq, Repr

/-- A fetch outcome that does not yield a usable response: a non-200
status, a transport failure, or an exception. -/
def Fetch.failed {α : Type} : Fetch α → Prop
  | .response s _ => s ≠ 200
  | .network_error => True
  | .unexpected_error => True

end SkyShield

namespace SkyShield.Final

open SkyShield

/-- The `HEALTH_THRESHOLDS` table of `final.py` (North America). -/
def HEALTH_THRESHOLDS : String → Option Thresholds
  | "PM2_5" => some ⟨12.0, 35.4, 55.4, "μg/m³",
      "Good - healthy air quality", "Moderate - acceptable air quality",
      "Unhealthy for sensitive groups"⟩
  | "NO2" => some ⟨40, 100, 200, "ppb",
      "Good - low vehicle pollution", "Moderate - medium NO2 levels",
      "Unhealthy - high nitrogen dioxide"⟩
  | "O3" => some ⟨50, 70, 85, "ppb",
      "Good - low ozone levels", "Moderate - increased ozone",
      "Unhealthy - high ozone levels"⟩
  | "CO2" => some ⟨450, 600, 1000, "ppm",
      "Excellent - fresh outdoor air", "Moderate - typical urban levels",
      "Poor - elevated CO2 levels"⟩
  | _ => none

/-- `aqi_to_pm25` of `final.py`: the US-EPA-style breakpoint table
anchored at integer segment ends 51, 101, 151. -/
def aqi_to_pm25 (aqi : ℚ) : ℚ :=
  if aqi ≤ 50 then aqi * 12.0 / 50
  else if aqi ≤ 100 then 12.1 + (aqi - 51) * (35.4 - 12.1) / 49
  else if aqi ≤ 150 then 35.5 + (aqi - 101) * (55.4 - 35.5) / 49
  else 55.5 + (aqi - 151) * (150.4 - 55.5) / 49

/-- `process_iqair_response` of `final.py`: the PM2.5 entry is emitted only
when `aqius > 0`; the O3 and NO2 entries are guarded only by Python
truthiness of the raw field. -/
def process_iqair_response (resp : IQAirResponse) (city country : String) :
    List Measurement :=
  if resp.hasData then
    (if resp.pollution.aqius.getD 0 > 0 then
      [rated HEALTH_THRESHOLDS "PM2_5" (aqi_to_pm25 (resp.pollution.aqius.getD 0))
        "μg/m³" ("IQAir - " ++ city ++ ", " ++ country)
        (some (resp.pollution.aqius.getD 0))]
     else []) ++
    (if truthy resp.pollution.o3 then
      [rated HEALTH_THRESHOLDS "O3" (resp.pollution.o3.getD 0) "ppb"
        ("IQAir - " ++ city ++ ", " ++ country)]
     else []) ++
    (if truthy resp.pollution.no2 then
      [rated HEALTH_THRESHOLDS "NO2" (resp.pollution.no2.getD 0) "ppb"
        ("IQAir - " ++ city ++ ", " ++ country)]
     else [])
  else []

/-- `get_iqair_city_data` of `final.py`: process a 200 response, return the
empty list on any other status, on a `RequestException`, or on any other
exception. -/
def get_iqair_city_data (f : Fetch IQAirResponse) (city country : String) :
    List Measurement :=
  match f with
  | .response s body =>
    if s = 200 then process_iqair_response body city country else []
  | .network_error => []
  | .unexpected_error => []

/-- The city adjustment dict of `get_co2_estimation` (`.get(city, 20)`). -/
def city_adjustments : String → ℚ
  | "New York" => 25
  | "Los Angeles" => 30
  | "Chicago" => 20
  | "Toronto" => 15
  | "Vancouver" => 10
  | "Mexico City" => 35
  | "Montreal" => 18
  | "Houston" => 22
  | _ => 20

/-- `get_co2_estimation` of `final.py`: an estimated CO2 value from the
city and the current hour, with a rating chosen directly by its own
if-chain (not via `get_health_rating`). -/
def get_co2_estimation (city : String) (current_hour : ℕ) : Measurement :=
  let adjustment := city_adjustments city +
    (if (7 ≤ current_hour ∧ current_hour ≤ 9) ∨
        (16 ≤ current_hour ∧ current_hour ≤ 18) then 15 else 0)
  let estimated_co2 : ℚ := 420 + adjustment
  let rid :=
    if estimated_co2 ≤ 450 then ("EXCELLENT", "[E]", "Fresh outdoor air")
    else if estimated_co2 ≤ 600 then ("GOOD", "[G]", "Typical urban air")
    else if estimated_co2 ≤ 1000 then ("MODERATE", "[M]", "Elevated CO2 levels")
    else ("POOR", "[P]", "High CO2 concentration")
  { pollutant := "CO2", value := estimated_co2, units := "ppm",
    source := "CO2 Estimate - " ++ city, rating := rid.1,
    indicator := rid.2.1, description := rid.2.2 }

end SkyShield.Final

namespace SkyShield.Part000

open SkyShield

/-- The `HEALTH_THRESHOLDS` table of `part_000` (Indonesian KLHK standards). -/
def HEALTH_THRESHOLDS : String → Option Thresholds
  | "PM2_5" => some ⟨15, 35, 55, "μg/m³",
      "Good - healthy air quality", "Moderate - acceptable air quality",
      "Unhealthy - sensitive groups affected"⟩
  | "PM10" => some ⟨50, 100, 250, "μg/m³",
      "Good - healthy air quality", "Moderate - acceptable air quality",
      "Unhealthy - sensitive groups affected"⟩
  | "NO2" => some ⟨80, 150, 400, "μg/m³",
      "Good - low vehicle pollution", "Moderate - medium vehicle pollution",
      "Unhealthy - high vehicle pollution"⟩
  | "O3" => some ⟨80, 120, 180, "μg/m³",
      "Good - low ozone levels", "Moderate - increased ozone",
      "Unhealthy - high ozone levels"⟩
  | "SO2" => some ⟨50, 100, 300, "μg/m³",
      "Good - low industrial pollution", "Moderate - medium industrial pollution",
      "Unhealthy - high industrial pollution"⟩
  | "CO" => some ⟨2, 5, 10, "mg/m³",
      "Good - clean combustion", "Moderate - incomplete combustion",
      "Unhealthy - poor combustion"⟩
  | _ => none

/-- First branch formula of `aqi_to_pm25` in `part_000` (indices up to 50). -/
def seg1 (aqi : ℚ) : ℚ := aqi * 0.5

/-- Second branch formula of `aqi_to_pm25` in `part_000` (50 to 100). -/
def seg2 (aqi : ℚ) : ℚ := 25 + (aqi - 50) * 0.5

/-- Third branch formula of `aqi_to_pm25` in `part_000` (100 to 150). -/
def seg3 (aqi : ℚ) : ℚ := 50 + (aqi - 100) * 0.5

/-- Fourth branch formula of `aqi_to_pm25` in `part_000` (150 to 200). -/
def seg4 (aqi : ℚ) : ℚ := 75 + (aqi - 150) * 0.5

/-- Fifth branch formula of `aqi_to_pm25` in `part_000` (200 to 300). -/
def seg5 (aqi : ℚ) : ℚ := 100 + (aqi - 200) * 1.0

/-- Final open branch formula of `aqi_to_pm25` in `part_000` (above 300). -/
def seg6 (aqi : ℚ) : ℚ := 200 + (aqi - 300) * 1.0

/-- `aqi_to_pm25` of `part_000`: six segments whose branch conditions meet
at 50, 100, 150, 200 and 300. -/
def aqi_to_pm25 (aqi : ℚ) : ℚ :=
  if aqi ≤ 50 then seg1 aqi
  else if aqi ≤ 100 then seg2 aqi
  else if aqi ≤ 150 then seg3 aqi
  else if aqi ≤ 200 then seg4 aqi
  else if aqi ≤ 300 then seg5 aqi
  else seg6 aqi

/-- The `other_pollutants` loop body of `process_iqair_data`: a pollutant
entry is emitted when the raw field is truthy and positive
(`if value and value > 0`). -/
def iqair_other (src poll_name : String) (raw : Option ℚ) : List Measurement :=
  match raw with
  | none => []
  | some v =>
    if v ≠ 0 ∧ v > 0 then
      [rated HEALTH_THRESHOLDS poll_name v (units_of HEALTH_THRESHOLDS poll_name) src]
    else []

/-- `process_iqair_data` of `part_000`: a PM2.5 entry derived from `aqius`
when it is positive, then NO2, O3, SO2 and CO entries in dict order. -/
def process_iqair_data (resp : IQAirResponse) : List Measurement :=
  if resp.hasData then
    (if resp.pollution.aqius.getD 0 > 0 then
      [rated HEALTH_THRESHOLDS "PM2_5" (aqi_to_pm25 (resp.pollution.aqius.getD 0))
        (units_of HEALTH_THRESHOLDS "PM2_5") ("IQAir - " ++ resp.city)
        (some (resp.pollution.aqius.getD 0))]
     else []) ++
    iqair_other ("IQAir - " ++ resp.city) "NO2" resp.pollution.no2 ++
    iqair_other ("IQAir - " ++ resp.city) "O3" resp.pollution.o3 ++
    iqair_other ("IQAir - " ++ resp.city) "SO2" resp.pollution.so2 ++
    iqair_other ("IQAir - " ++ resp.city) "CO" resp.pollution.co
  else []

/-- `get_iqair_data` of `part_000`: process a 200 response, return the
empty list on any other status or on any exception. -/
def get_iqair_data (f : Fetch IQAirResponse) : List Measurement :=
  match f with
  | .response s body => if s = 200 then process_iqair_data body else []
  | .network_error => []
  | .unexpected_error => []

/-- One entry of an OpenAQ station's `measurements` array. -/
structure OpenAQMeasurementJson where
  parameter : String
  value : ℚ
  unit : String := "unknown"
  deriving DecidableEq, Repr

/-- One station of an OpenAQ `results` array. -/
structure OpenAQStation where
  location : String := "Unknown"
  measurements : List OpenAQMeasurementJson := []
  deriving DecidableEq, Repr

/-- The `poll_map` lookup of `process_openaq_data`. -/
def poll_map_openaq : String → Option String
  | "PM25" => some "PM2_5"
  | "PM10" => some "PM10"
  | "NO2" => some "NO2"
  | "O3" => some "O3"
  | "SO2" => some "SO2"
  | "CO" => some "CO"
  | _ => none

/-- `process_openaq_data` of `part_000` (body is `none` when the response
has no `results` key): the first five stations, one entry per recognised
parameter, with the ad hoc ppm→mg/m³ factor for CO. -/
def process_openaq_data : Option (List OpenAQStation) → List Measurement
  | none => []
  | some stations =>
    ((stations.take 5).map fun station =>
      station.measurements.filterMap fun mj =>
        match poll_map_openaq mj.parameter.toUpper with
        | none => none
        | some mapped =>
          if mapped = "CO" ∧ mj.unit = "ppm" then
            some (rated HEALTH_THRESHOLDS mapped (mj.value * 1.15) "mg/m³"
              ("OpenAQ: " ++ station.location))
          else
            some (rated HEALTH_THRESHOLDS mapped mj.value mj.unit
              ("OpenAQ: " ++ station.location))).flatten

/-- `get_openaq_data` of `part_000`. -/
def get_openaq_data (f : Fetch (Option (List OpenAQStation))) : List Measurement :=
  match f with
  | .response s body => if s = 200 then process_openaq_data body else []
  | .network_error => []
  | .unexpected_error => []

/-- One pollutant entry of a Tempo IKU station (`.get('name', '')`,
`.get('value', 0)` defaults applied). -/
structure TempoPollutant where
  name : String := ""
  value : ℚ := 0
  deriving DecidableEq, Repr

/-- One station of the Tempo IKU API response; `pollutants` is `none` when
the `'pollutants'` key is absent. -/
structure TempoStation where
  name : String := "Unknown"
  pollutants : Option (List TempoPollutant) := none
  deriving DecidableEq, Repr

/-- The `poll_map` lookup of `process_tempo_data`. -/
def poll_map_tempo : String → Option String
  | "PM2.5" => some "PM2_5"
  | "PM25" => some "PM2_5"
  | "PM10" => some "PM10"
  | "NO2" => some "NO2"
  | "NITROGEN DIOXIDE" => some "NO2"
  | "O3" => some "O3"
  | "OZONE" => some "O3"
  | "SO2" => some "SO2"
  | "SULFUR DIOXIDE" => some "SO2"
  | "CO" => some "CO"
  | "CARBON MONOXIDE" => some "CO"
  | _ => none

/-- `process_tempo_data` of `part_000` (`none` when the body is not a
list): the first three stations, one entry per recognised pollutant name. -/
def process_tempo_data : Option (List TempoStation) → List Measurement
  | none => []
  | some stations =>
    ((stations.take 3).map fun station =>
      match station.pollutants with
      | none => []
      | some polls =>
        polls.filterMap fun pd =>
          match poll_map_tempo pd.name.toUpper with
          | none => none
          | some mapped =>
            some (rated HEALTH_THRESHOLDS mapped pd.value
              (units_of HEALTH_THRESHOLDS mapped)
              ("Tempo IKU: " ++ station.name))).flatten

/-- `scrape_tempo_website` of `part_000`, parameterised by the numeric
values extracted from the page (`none` models a failed request or parse):
the first five values in the open range (0, 500) become PM2.5 entries. -/
def scrape_tempo_website : Option (List ℚ) → List Measurement
  | none => []
  | some vals =>
    (vals.take 5).filterMap fun v =>
      if 0 < v ∧ v < 500 then
        some (rated HEALTH_THRESHOLDS "PM2_5" v (units_of HEALTH_THRESHOLDS "PM2_5")
          "Tempo.co IKU")
      else none

/-- `get_tempo_iku_data` of `part_000`: process a 200 response, fall back
to scraping the website on any other status, return the empty list on any
exception. -/
def get_tempo_iku_data (f : Fetch (Option (List TempoStation)))
    (page : Option (List ℚ)) : List Measurement :=
  match f with
  | .response s body =>
    if s = 200 then process_tempo_data body else scrape_tempo_website page
  | .network_error => []
  | .unexpected_error => []

/-- The result of one `collect_all_air_quality_data` run together with
which adapters the run invoked. -/
structure CollectTrace where
  data : List Measurement
  iqair_invoked : Bool
  openaq_invoked : Bool
  tempo_invoked : Bool
  deriving DecidableEq, Repr

/-- `collect_all_air_quality_data` of `part_000`, over the values the three
adapter calls would return: IQAir and OpenAQ are called unconditionally;
Tempo IKU is called only when fewer than 2 measurements have accumulated. -/
def collect_all_air_quality_data (iqair_data openaq_data tempo_data :
    List Measurement) : CollectTrace :=
  let all_data := iqair_data ++ openaq_data
  if all_data.length < 2 then
    ⟨all_data ++ tempo_data, true, true, true⟩
  else
    ⟨all_data, true, true, false⟩

/-- The inputs of one update cycle: the three adapters' fetch outcomes and
the Tempo page content for the scraping fallback. -/
structure CycleInput where
  iqair : Fetch IQAirResponse
  openaq : Fetch (Option (List OpenAQStation))
  tempo : Fetch (Option (List TempoStation))
  tempo_page : Option (List ℚ)

/-- The aggregation performed by one cycle of `perform_update`. -/
def run_cycle (c : CycleInput) : CollectTrace :=
  collect_all_air_quality_data (get_iqair_data c.iqair)
    (get_openaq_data c.openaq) (get_tempo_iku_data c.tempo c.tempo_page)

/-- `perform_update` of `part_000`: increments `run_count`, then collects;
every error inside the cycle is caught and logged, so the new count is
returned in every case. -/
def perform_update (run_count : ℕ) (c : CycleInput) : ℕ × List Measurement :=
  (run_count + 1, (run_cycle c).data)

/-- `auto_update_worker` of `part_000` over a finite schedule of cycle
inputs: performs every scheduled update in order (exceptions inside a
cycle are caught, so no cycle outcome stops the loop), returning the final
`run_count` and the per-cycle data. -/
def auto_update_worker (run_count : ℕ) :
    List CycleInput → ℕ × List (List Measurement)
  | [] => (run_count, [])
  | c :: rest =>
    let u := perform_update run_count c
    let r := auto_update_worker u.1 rest
    (r.1, u.2 :: r.2)

end SkyShield.Part000

namespace SkyShield

/-! Helper lemmas shared by the verification theorems. -/

/-- The closed set of ratings `get_health_rating` can produce. -/
def allowed_ratings : List String :=
  ["GOOD", "MODERATE", "UNHEALTHY", "VERY UNHEALTHY", "UNKNOWN"]

/-- A measurement whose rating is the classifier's output on its own
pollutant and value, and lies in the closed rating set. -/
def derived_ok (tbl : String → Option Thresholds) (m : Measurement) : Prop :=
  m.rating ∈ allowed_ratings ∧
  m.rating = (get_health_rating tbl m.pollutant m.value).1

/-- Unfolding lemma for `get_health_rating` on a pollutant absent from the
table. -/
theorem get_health_rating_none (tbl : String → Option Thresholds)
    (p : String) (v : ℚ) (hp : tbl p = none) :
    get_health_rating tbl p v = ("UNKNOWN", "[?]", "No rating available") := by
  unfold get_health_rating
  rw [hp]

/-- Unfolding lemma for `get_health_rating` on a pollutant present in the
table. -/
theorem get_health_rating_some (tbl : String → Option Thresholds)
    (p : String) (t : Thresholds) (v : ℚ) (hp : tbl p = some t) :
    get_health_rating tbl p v =
      if v ≤ t.good then ("GOOD", "[G]", t.good_desc)
      else if v ≤ t.moderate then ("MODERATE", "[M]", t.moderate_desc)
      else if v ≤ t.bad then ("UNHEALTHY", "[U]", t.bad_desc)
      else ("VERY UNHEALTHY", "[VU]", "Dangerous pollution levels") := by
  unfold get_health_rating
  rw [hp]

theorem rating_mem_allowed (tbl : String → Option Thresholds) (p : String)
    (v : ℚ) : (get_health_rating tbl p v).1 ∈ allowed_ratings := by
  cases h : tbl p with
  | none => rw [get_health_rating_none tbl p v h]; simp [allowed_ratings]
  | some t =>
    rw [get_health_rating_some tbl p t v h]
    split_ifs <;> simp [allowed_ratings]

theorem rated_derived_ok (tbl : String → Option Thresholds) (p : String)
    (v : ℚ) (us src : String) (raw : Option ℚ) :
    derived_ok tbl (rated tbl p v us src raw) :=
  ⟨rating_mem_allowed tbl p v, rfl⟩

theorem mem_ite_rated {tbl : String → Option Thresholds} {c : Prop}
    [Decidable c] {m : Measurement} {p : String} {v : ℚ} {us src : String}
    {raw : Option ℚ}
    (hm : m ∈ if c then [rated tbl p v us src raw] else []) :
    derived_ok tbl m := by
  split at hm
  · rw [List.mem_singleton] at hm
    subst hm
    exact rated_derived_ok tbl p v us src raw
  · simp at hm

/-- Numeric severity of a rating string, ordered from safest to worst. -/
def severity : String → ℕ
  | "GOOD" => 0
  | "MODERATE" => 1
  | "UNHEALTHY" => 2
  | "VERY UNHEALTHY" => 3
  | _ => 4

theorem severity_mono (tbl : String → Option Thresholds) (p : String)
    (t : Thresholds) (hp : tbl p = some t) (v w : ℚ) (h : v ≤ w) :
    severity (get_health_rating tbl p v).1 ≤
      severity (get_health_rating tbl p w).1 := by
  rw [get_health_rating_some tbl p t v hp, get_health_rating_some tbl p t w hp]
  split_ifs <;> (try simp [severity]) <;> linarith

/-- The Indonesia converter collapses to one continuous formula. -/
theorem part000_closed_form (x : ℚ) :
    Part000.aqi_to_pm25 x = if x ≤ 200 then x / 2 else x - 100 := by
  unfold Part000.aqi_to_pm25 Part000.seg1 Part000.seg2 Part000.seg3
    Part000.seg4 Part000.seg5 Part000.seg6
  split_ifs <;> linarith

theorem part000_aqi_pos (x : ℚ) (hx : 0 < x) : 0 < Part000.aqi_to_pm25 x := by
  rw [part000_closed_form]
  split_ifs <;> linarith

theorem final_aqi_pos (x : ℚ) (hx : 0 < x) : 0 < Final.aqi_to_pm25 x := by
  unfold Final.aqi_to_pm25
  split_ifs <;> linarith

/-- Branch value of the North America converter on its first segment. -/
theorem final_aqi_branch1 (x : ℚ) (h : x ≤ 50) :
    Final.aqi_to_pm25 x = x * 12.0 / 50 := by
  rw [Final.aqi_to_pm25, if_pos h]

/-- Branch value of the North America converter on its second segment. -/
theorem final_aqi_branch2 (x : ℚ) (h1 : 50 < x) (h2 : x ≤ 100) :
    Final.aqi_to_pm25 x = 12.1 + (x - 51) * (35.4 - 12.1) / 49 := by
  rw [Final.aqi_to_pm25, if_neg (by linarith), if_pos h2]

/-- Branch value of the North America converter on its third segment. -/
theorem final_aqi_branch3 (x : ℚ) (h1 : 100 < x) (h2 : x ≤ 150) :
    Final.aqi_to_pm25 x = 35.5 + (x - 101) * (55.4 - 35.5) / 49 := by
  rw [Final.aqi_to_pm25, if_neg (by linarith), if_neg (by linarith), if_pos h2]

/-- Branch value of the North America converter on its last segment. -/
theorem final_aqi_branch4 (x : ℚ) (h : 150 < x) :
    Final.aqi_to_pm25 x = 55.5 + (x - 151) * (150.4 - 55.5) / 49 := by
  rw [Final.aqi_to_pm25, if_neg (by linarith), if_neg (by linarith),
    if_neg (by linarith)]

/-- One step of monotonicity of the North America converter on integer
indices. -/
theorem final_aqi_step (n : ℕ) :
    Final.aqi_to_pm25 n ≤ Final.aqi_to_pm25 (n + 1 : ℕ) := by
  have hc : ((n + 1 : ℕ) : ℚ) = (n : ℚ) + 1 := by push_cast; ring
  rw [hc]
  by_cases h1 : n ≤ 49
  · have a1 : (n : ℚ) ≤ 49 := by exact_mod_cast h1
    rw [final_aqi_branch1 _ (by linarith), final_aqi_branch1 _ (by linarith)]
    linarith
  · by_cases h2 : n = 50
    · subst h2; norm_num [Final.aqi_to_pm25]
    · have h2n : 51 ≤ n := by omega
      have h2q : (51 : ℚ) ≤ n := by exact_mod_cast h2n
      by_cases h3 : n ≤ 99
      · have a3 : (n : ℚ) ≤ 99 := by exact_mod_cast h3
        rw [final_aqi_branch2 _ (by linarith) (by linarith),
          final_aqi_branch2 _ (by linarith) (by linarith)]
        linarith
      · by_cases h4 : n = 100
        · subst h4; norm_num [Final.aqi_to_pm25]
        · have h4n : 101 ≤ n := by omega
          have h4q : (101 : ℚ) ≤ n := by exact_mod_cast h4n
          by_cases h5 : n ≤ 149
          · have a5 : (n : ℚ) ≤ 149 := by exact_mod_cast h5
            rw [final_aqi_branch3 _ (by linarith) (by linarith),
              final_aqi_branch3 _ (by linarith) (by linarith)]
            linarith
          · by_cases h6 : n = 150
            · subst h6; norm_num [Final.aqi_to_pm25]
            · have h6n : 151 ≤ n := by omega
              have h6q : (151 : ℚ) ≤ n := by exact_mod_cast h6n
              rw [final_aqi_branch4 _ (by linarith),
                final_aqi_branch4 _ (by linarith)]
              linarith

theorem final_aqi_mono_nat (a b : ℕ) (hab : a ≤ b) :
    Final.aqi_to_pm25 a ≤ Final.aqi_to_pm25 b :=
  monotone_nat_of_le_succ final_aqi_step hab

/-! Failure containment of the individual adapters. -/

theorem final_get_iqair_city_data_failed (f : Fetch IQAirResponse)
    (city country : String) (h : f.failed) :
    Final.get_iqair_city_data f city country = [] := by
  cases f with
  | response s b =>
    exact if_neg (by simpa [Fetch.failed] using h)
  | network_error => rfl
  | unexpected_error => rfl

theorem part000_get_iqair_data_failed (f : Fetch IQAirResponse)
    (h : f.failed) : Part000.get_iqair_data f = [] := by
  cases f with
  | response s b => exact if_neg (by simpa [Fetch.failed] using h)
  | network_error => rfl
  | unexpected_error => rfl

theorem part000_get_openaq_data_failed
    (f : Fetch (Option (List Part000.OpenAQStation))) (h : f.failed) :
    Part000.get_openaq_data f = [] := by
  cases f with
  | response s b => exact if_neg (by simpa [Fetch.failed] using h)
  | network_error => rfl
  | unexpected_error => rfl

theorem part000_get_tempo_iku_data_failed
    (f : Fetch (Option (List Part000.TempoStation))) (h : f.failed) :
    Part000.get_tempo_iku_data f none = [] := by
  cases f with
  | response s b =>
    show (if s = 200 then _ else Part000.scrape_tempo_website none) = []
    rw [if_neg (by simpa [Fetch.failed] using h)]
    rfl
  | network_error => rfl
  | unexpected_error => rfl

theorem auto_update_worker_count (cs : List Part000.CycleInput) (n : ℕ) :
    (Part000.auto_update_worker n cs).1 = n + cs.length := by
  induction cs generalizing n with
  | nil => simp [Part000.auto_update_worker]
  | cons c rest ih =>
    simp only [Part000.auto_update_worker, Part000.perform_update, ih,
      List.length_cons]
    omega

/-! Membership decomposition for the adapters' processing functions. -/

theorem iqair_other_mem (src nm : String) (raw : Option ℚ) (m : Measurement)
    (hm : m ∈ Part000.iqair_other src nm raw) :
    ∃ v : ℚ, raw = some v ∧ 0 < v ∧
      m = rated Part000.HEALTH_THRESHOLDS nm v
        (units_of Part000.HEALTH_THRESHOLDS nm) src none := by
  cases raw with
  | none => simp [Part000.iqair_other] at hm
  | some v =>
    simp only [Part000.iqair_other] at hm
    split_ifs at hm with hv
    · rw [List.mem_singleton] at hm
      exact ⟨v, rfl, hv.2, hm⟩
    · simp at hm

theorem process_iqair_data_mem (resp : IQAirResponse) (m : Measurement)
    (hm : m ∈ Part000.process_iqair_data resp) :
    (0 < resp.pollution.aqius.getD 0 ∧
      m = rated Part000.HEALTH_THRESHOLDS "PM2_5"
        (Part000.aqi_to_pm25 (resp.pollution.aqius.getD 0))
        (units_of Part000.HEALTH_THRESHOLDS "PM2_5") ("IQAir - " ++ resp.city)
        (some (resp.pollution.aqius.getD 0))) ∨
    m ∈ Part000.iqair_other ("IQAir - " ++ resp.city) "NO2" resp.pollution.no2 ∨
    m ∈ Part000.iqair_other ("IQAir - " ++ resp.city) "O3" resp.pollution.o3 ∨
    m ∈ Part000.iqair_other ("IQAir - " ++ resp.city) "SO2" resp.pollution.so2 ∨
    m ∈ Part000.iqair_other ("IQAir - " ++ resp.city) "CO" resp.pollution.co := by
  unfold Part000.process_iqair_data at hm
  by_cases hd : resp.hasData = true
  · rw [if_pos hd] at hm
    rcases List.mem_append.1 hm with h | h
    · rcases List.mem_append.1 h with h | h
      · rcases List.mem_append.1 h with h | h
        · rcases List.mem_append.1 h with h | h
          · split_ifs at h with ha
            · rw [List.mem_singleton] at h
              exact Or.inl ⟨ha, h⟩
            · simp at h
          · exact Or.inr (Or.inl h)
        · exact Or.inr (Or.inr (Or.inl h))
      · exact Or.inr (Or.inr (Or.inr (Or.inl h)))
    · exact Or.inr (Or.inr (Or.inr (Or.inr h)))
  · rw [if_neg hd] at hm
    simp at hm

theorem process_iqair_response_mem (resp : IQAirResponse)
    (city country : String) (m : Measurement)
    (hm : m ∈ Final.process_iqair_response resp city country) :
    (0 < resp.pollution.aqius.getD 0 ∧
      m = rated Final.HEALTH_THRESHOLDS "PM2_5"
        (Final.aqi_to_pm25 (resp.pollution.aqius.getD 0)) "μg/m³"
        ("IQAir - " ++ city ++ ", " ++ country)
        (some (resp.pollution.aqius.getD 0))) ∨
    (truthy resp.pollution.o3 = true ∧
      m = rated Final.HEALTH_THRESHOLDS "O3" (resp.pollution.o3.getD 0) "ppb"
        ("IQAir - " ++ city ++ ", " ++ country) none) ∨
    (truthy resp.pollution.no2 = true ∧
      m = rated Final.HEALTH_THRESHOLDS "NO2" (resp.pollution.no2.getD 0) "ppb"
        ("IQAir - " ++ city ++ ", " ++ country) none) := by
  unfold Final.process_iqair_response at hm
  by_cases hd : resp.hasData = true
  · rw [if_pos hd] at hm
    rcases List.mem_append.1 hm with h | h
    · rcases List.mem_append.1 h with h | h
      · split_ifs at h with ha
        · rw [List.mem_singleton] at h
          exact Or.inl ⟨ha, h⟩
        · simp at h
      · split_ifs at h with ha
        · rw [List.mem_singleton] at h
          exact Or.inr (Or.inl ⟨ha, h⟩)
        · simp at h
    · split_ifs at h with ha
      · rw [List.mem_singleton] at h
        exact Or.inr (Or.inr ⟨ha, h⟩)
      · simp at h
  · rw [if_neg hd] at hm
    simp at hm

theorem process_openaq_data_derived (body : Option (List Part000.OpenAQStation))
    (m : Measurement) (hm : m ∈ Part000.process_openaq_data body) :
    derived_ok Part000.HEALTH_THRESHOLDS m := by
  cases body with
  | none => simp [Part000.process_openaq_data] at hm
  | some stations =>
    simp only [Part000.process_openaq_data] at hm
    rw [List.mem_flatten] at hm
    obtain ⟨l, hl, hml⟩ := hm
    rw [List.mem_map] at hl
    obtain ⟨station, hst, rfl⟩ := hl
    rw [List.mem_filterMap] at hml
    obtain ⟨mj, hmj, he⟩ := hml
    split at he
    · simp at he
    · split_ifs at he <;>
        (rw [Option.some_inj] at he; subst he; exact rated_derived_ok _ _ _ _ _ _)

theorem process_tempo_data_derived (body : Option (List Part000.TempoStation))
    (m : Measurement) (hm : m ∈ Part000.process_tempo_data body) :
    derived_ok Part000.HEALTH_THRESHOLDS m := by
  cases body with
  | none => simp [Part000.process_tempo_data] at hm
  | some stations =>
    simp only [Part000.process_tempo_data] at hm
    rw [List.mem_flatten] at hm
    obtain ⟨l, hl, hml⟩ := hm
    rw [List.mem_map] at hl
    obtain ⟨station, hst, rfl⟩ := hl
    split at hml
    · simp at hml
    · rw [List.mem_filterMap] at hml
      obtain ⟨pd, hpd, he⟩ := hml
      split at he
      · simp at he
      · rw [Option.some_inj] at he
        subst he
        exact rated_derived_ok _ _ _ _ _ _

theorem scrape_tempo_website_derived (page : Option (List ℚ))
    (m : Measurement) (hm : m ∈ Part000.scrape_tempo_website page) :
    derived_ok Part000.HEALTH_THRESHOLDS m := by
  cases page with
  | none => simp [Part000.scrape_tempo_website] at hm
  | some vals =>
    simp only [Part000.scrape_tempo_website] at hm
    rw [List.mem_filterMap] at hm
    obtain ⟨v, hv, he⟩ := hm
    split_ifs at he
    rw [Option.some_inj] at he
    subst he
    exact rated_derived_ok _ _ _ _ _ _

theorem co2_rating_mem (city : String) (hour : ℕ) :
    (Final.get_co2_estimation city hour).rating ∈
      (["EXCELLENT", "GOOD", "MODERATE", "POOR"] : List String) := by
  simp only [Final.get_co2_estimation]
  split_ifs <;> simp

/-! Claim theorems. -/

/-- C1 (counterexample): the claim's clause that classification at
`good_max + ε` yields MODERATE for every ε > 0 fails on the code: for the
PM2.5 profile of `final.py` (`good_max = 12.0`) and ε = 1000 the classifier
returns VERY UNHEALTHY, not MODERATE. -/
theorem claim_C1_counterexample :
    (0 : ℚ) < 1000 ∧
    (get_health_rating Final.HEALTH_THRESHOLDS "PM2_5" (12.0 + 1000)).1 =
      "VERY UNHEALTHY" := by
  refine ⟨by norm_num, ?_⟩
  rw [get_health_rating_some Final.HEALTH_THRESHOLDS "PM2_5"
    ⟨12.0, 35.4, 55.4, "μg/m³", "Good - healthy air quality",
      "Moderate - acceptable air quality", "Unhealthy for sensitive groups"⟩
    _ rfl]
  norm_num

/-- C1 (amended): for every pollutant present in the active threshold
profile (with ordered boundaries), `get_health_rating` returns GOOD when
`value ≤ good_max`, MODERATE on `(good_max, moderate_max]`, UNHEALTHY on
`(moderate_max, bad_max]`, VERY UNHEALTHY above `bad_max`; in particular
the rating at `good_max` itself is GOOD and the rating at `good_max + ε` is
MODERATE for every ε with `0 < ε ≤ moderate_max - good_max` (boundary
values belong to the lower/safer bucket). -/
theorem claim_C1_buckets (tbl : String → Option Thresholds) (p : String)
    (t : Thresholds) (hp : tbl p = some t) (hgm : t.good ≤ t.moderate)
    (hmb : t.moderate ≤ t.bad) (v e : ℚ) :
    (v ≤ t.good → (get_health_rating tbl p v).1 = "GOOD") ∧
    (t.good < v → v ≤ t.moderate → (get_health_rating tbl p v).1 = "MODERATE") ∧
    (t.moderate < v → v ≤ t.bad → (get_health_rating tbl p v).1 = "UNHEALTHY") ∧
    (t.bad < v → (get_health_rating tbl p v).1 = "VERY UNHEALTHY") ∧
    (get_health_rating tbl p t.good).1 = "GOOD" ∧
    (0 < e → e ≤ t.moderate - t.good →
      (get_health_rating tbl p (t.good + e)).1 = "MODERATE") := by
  rw [get_health_rating_some tbl p t v hp,
    get_health_rating_some tbl p t t.good hp,
    get_health_rating_some tbl p t (t.good + e) hp]
  refine ⟨?_, ?_, ?_, ?_, ?_, ?_⟩ <;> intros <;> split_ifs <;>
    first | rfl | linarith

/-- C1 (witness): the amended buckets evaluated on the PM2.5 profile of
`final.py`. -/
theorem claim_C1_buckets_witness :
    (get_health_rating Final.HEALTH_THRESHOLDS "PM2_5" 12.0).1 = "GOOD" ∧
    (get_health_rating Final.HEALTH_THRESHOLDS "PM2_5" (12.0 + 1)).1 =
      "MODERATE" ∧
    (get_health_rating Final.HEALTH_THRESHOLDS "PM2_5" 40).1 = "UNHEALTHY" ∧
    (get_health_rating Final.HEALTH_THRESHOLDS "PM2_5" 60).1 =
      "VERY UNHEALTHY" := by
  have h40 := claim_C1_buckets Final.HEALTH_THRESHOLDS "PM2_5"
    ⟨12.0, 35.4, 55.4, "μg/m³", "Good - healthy air quality",
      "Moderate - acceptable air quality", "Unhealthy for sensitive groups"⟩
    rfl (by norm_num) (by norm_num) 40 1
  have h60 := claim_C1_buckets Final.HEALTH_THRESHOLDS "PM2_5"
    ⟨12.0, 35.4, 55.4, "μg/m³", "Good - healthy air quality",
      "Moderate - acceptable air quality", "Unhealthy for sensitive groups"⟩
    rfl (by norm_num) (by norm_num) 60 1
  exact ⟨h40.2.2.2.2.1, h40.2.2.2.2.2 (by norm_num) (by norm_num),
    h40.2.2.1 (by norm_num) (by norm_num), h60.2.2.2.1 (by norm_num)⟩

/-- C3 (counterexample): the North America converter of `final.py` is not
continuous across the first segment boundary in the spec's sense: the
output at the upper bound of segment one (index 50) is 12.0 while the
output at the lower bound of segment two (index 51) is 12.1. -/
theorem claim_C3_counterexample :
    Final.aqi_to_pm25 50 = 12 ∧ Final.aqi_to_pm25 51 = 12.1 ∧
    (12 : ℚ) ≠ 12.1 := by
  refine ⟨?_, ?_, by norm_num⟩
  · rw [final_aqi_branch1 50 (by norm_num)]; norm_num
  · rw [final_aqi_branch2 51 (by norm_num) (by norm_num)]; norm_num

/-- C3 (amended): the Indonesia converter of `part_000` is continuous at
every adjacent-segment boundary (each next segment's formula agrees with
the function value at 50, 100, 150, 200 and 300), while the North America
converter of `final.py` jumps by exactly 0.1 across each segment boundary
(between indices 50 and 51, 100 and 101, 150 and 151). -/
theorem claim_C3_continuity :
    (Part000.aqi_to_pm25 50 = Part000.seg2 50 ∧
     Part000.aqi_to_pm25 100 = Part000.seg3 100 ∧
     Part000.aqi_to_pm25 150 = Part000.seg4 150 ∧
     Part000.aqi_to_pm25 200 = Part000.seg5 200 ∧
     Part000.aqi_to_pm25 300 = Part000.seg6 300) ∧
    (Final.aqi_to_pm25 51 - Final.aqi_to_pm25 50 = 0.1 ∧
     Final.aqi_to_pm25 101 - Final.aqi_to_pm25 100 = 0.1 ∧
     Final.aqi_to_pm25 151 - Final.aqi_to_pm25 150 = 0.1) := by
  norm_num [Part000.aqi_to_pm25, Part000.seg1, Part000.seg2, Part000.seg3,
    Part000.seg4, Part000.seg5, Part000.seg6, Final.aqi_to_pm25]

/-- C4 (counterexample): over all non-negative indices the North America
converter is not non-decreasing: it decreases from index 50 to the
fractional index 50.5. -/
theorem claim_C4_counterexample :
    (0 : ℚ) ≤ 50 ∧ (50 : ℚ) ≤ 101 / 2 ∧
    Final.aqi_to_pm25 (101 / 2) < Final.aqi_to_pm25 50 := by
  refine ⟨by norm_num, by norm_num, ?_⟩
  rw [final_aqi_branch2 (101 / 2) (by norm_num) (by norm_num),
    final_aqi_branch1 50 (by norm_num)]
  norm_num

/-- C4 (amended): the North America converter is non-decreasing on integer
(natural-number) indices, the Indonesia converter is non-decreasing on all
non-negative rational indices, and for a pollutant present in a profile
the classifier's rating severity is non-decreasing in the value. -/
theorem claim_C4_monotone :
    (∀ a b : ℕ, a ≤ b → Final.aqi_to_pm25 a ≤ Final.aqi_to_pm25 b) ∧
    (∀ a b : ℚ, 0 ≤ a → a ≤ b →
      Part000.aqi_to_pm25 a ≤ Part000.aqi_to_pm25 b) ∧
    (∀ (tbl : String → Option Thresholds) (p : String) (t : Thresholds),
      tbl p = some t → ∀ v w : ℚ, v ≤ w →
        severity (get_health_rating tbl p v).1 ≤
          severity (get_health_rating tbl p w).1) := by
  refine ⟨final_aqi_mono_nat, ?_, ?_⟩
  · intro a b ha hab
    rw [part000_closed_form, part000_closed_form]
    split_ifs <;> linarith
  · intro tbl p t hp v w hvw
    exact severity_mono tbl p t hp v w hvw

/-- C4 (witness): the amended monotonicity at concrete inputs. -/
theorem claim_C4_monotone_witness :
    Final.aqi_to_pm25 ((3 : ℕ) : ℚ) ≤ Final.aqi_to_pm25 ((7 : ℕ) : ℚ) ∧
    Part000.aqi_to_pm25 10 ≤ Part000.aqi_to_pm25 250 ∧
    severity (get_health_rating Part000.HEALTH_THRESHOLDS "PM2_5" 10).1 ≤
      severity (get_health_rating Part000.HEALTH_THRESHOLDS "PM2_5" 60).1 :=
  ⟨claim_C4_monotone.1 3 7 (by norm_num),
   claim_C4_monotone.2.1 10 250 (by norm_num) (by norm_num),
   claim_C4_monotone.2.2 Part000.HEALTH_THRESHOLDS "PM2_5"
     ⟨15, 35, 55, "μg/m³", "Good - healthy air quality",
      "Moderate - acceptable air quality",
      "Unhealthy - sensitive groups affected"⟩ rfl 10 60 (by norm_num)⟩

/-- C6: AQI index 75 converts under the `final.py` breakpoints to
`12.1 + (75-51)*(35.4-12.1)/49` (between 23.5 and 23.6), and classifying
that concentration against the PM2.5 profile (good 12.0, moderate 35.4)
yields MODERATE. -/
theorem claim_C6_example :
    Final.aqi_to_pm25 75 = 12.1 + (75 - 51) * (35.4 - 12.1) / 49 ∧
    23.5 < Final.aqi_to_pm25 75 ∧ Final.aqi_to_pm25 75 < 23.6 ∧
    (get_health_rating Final.HEALTH_THRESHOLDS "PM2_5"
      (Final.aqi_to_pm25 75)).1 = "MODERATE" := by
  have h75 : Final.aqi_to_pm25 75 = 12.1 + (75 - 51) * (35.4 - 12.1) / 49 :=
    final_aqi_branch2 75 (by norm_num) (by norm_num)
  refine ⟨h75, by rw [h75]; norm_num, by rw [h75]; norm_num, ?_⟩
  rw [get_health_rating_some Final.HEALTH_THRESHOLDS "PM2_5"
    ⟨12.0, 35.4, 55.4, "μg/m³", "Good - healthy air quality",
      "Moderate - acceptable air quality", "Unhealthy for sensitive groups"⟩
    _ rfl, h75]
  norm_num

/-- C9 (counterexample): for a pollutant absent from the profile the
classifier of `final.py` returns the indicator `"[?]"`, so the returned
triple differs from the claimed `(UNKNOWN, "?", "No rating available")`. -/
theorem claim_C9_counterexample :
    get_health_rating Final.HEALTH_THRESHOLDS "SO2" 10 =
      ("UNKNOWN", "[?]", "No rating available") ∧
    ("UNKNOWN", "[?]", "No rating available") ≠
      (("UNKNOWN", "?", "No rating available") : String × String × String) :=
  ⟨get_health_rating_none Final.HEALTH_THRESHOLDS "SO2" 10 rfl, by decide⟩

/-- C9 (amended): for every pollutant kind absent from the active
threshold profile and every value, the classifier returns exactly the
triple `(UNKNOWN, "[?]", "No rating available")`. -/
theorem claim_C9_unknown (tbl : String → Option Thresholds) (p : String)
    (v : ℚ) (hp : tbl p = none) :
    get_health_rating tbl p v = ("UNKNOWN", "[?]", "No rating available") :=
  get_health_rating_none tbl p v hp

/-- C9 (witness): the Indonesia profile has no CO2 entry, so classifying
CO2 there yields the UNKNOWN triple. -/
theorem claim_C9_unknown_witness :
    get_health_rating Part000.HEALTH_THRESHOLDS "CO2" 500 =
      ("UNKNOWN", "[?]", "No rating available") :=
  claim_C9_unknown Part000.HEALTH_THRESHOLDS "CO2" 500 rfl

/-- C2 (counterexample): in `part_000` the secondary adapter (OpenAQ) is
invoked even in a cycle where the primary adapter (IQAir) returned two
measurements, contradicting the claim that it is never invoked then. -/
theorem claim_C2_counterexample :
    ([rated Part000.HEALTH_THRESHOLDS "PM2_5" 10 "μg/m³" "IQAir - Jakarta" none,
      rated Part000.HEALTH_THRESHOLDS "O3" 30 "μg/m³" "IQAir - Jakarta" none] :
        List Measurement).length = 2 ∧
    (Part000.collect_all_air_quality_data
      [rated Part000.HEALTH_THRESHOLDS "PM2_5" 10 "μg/m³" "IQAir - Jakarta" none,
       rated Part000.HEALTH_THRESHOLDS "O3" 30 "μg/m³" "IQAir - Jakarta" none]
      [] []).openaq_invoked = true :=
  ⟨rfl, rfl⟩

/-- C2 (amended): `collect_all_air_quality_data` invokes the primary and
secondary adapters unconditionally every cycle; only the tertiary adapter
(Tempo IKU) is gated by the sufficiency threshold 2: it is invoked exactly
when the primary and secondary adapters together returned fewer than 2
measurements, and its data is appended only in that case. -/
theorem claim_C2_fallback (iq oa te : List Measurement) :
    (Part000.collect_all_air_quality_data iq oa te).iqair_invoked = true ∧
    (Part000.collect_all_air_quality_data iq oa te).openaq_invoked = true ∧
    ((Part000.collect_all_air_quality_data iq oa te).tempo_invoked =
      decide (iq.length + oa.length < 2)) ∧
    (Part000.collect_all_air_quality_data iq oa te).data =
      (if iq.length + oa.length < 2 then iq ++ oa ++ te else iq ++ oa) := by
  refine ⟨?_, ?_, ?_, ?_⟩ <;>
    simp only [Part000.collect_all_air_quality_data] <;>
    split_ifs with h <;>
    simp_all [List.length_append, List.append_assoc]

/-- C2 (witness): the amended fallback rule on an empty cycle. -/
theorem claim_C2_fallback_witness :
    (Part000.collect_all_air_quality_data [] [] []).iqair_invoked = true ∧
    (Part000.collect_all_air_quality_data [] [] []).openaq_invoked = true ∧
    ((Part000.collect_all_air_quality_data [] [] []).tempo_invoked =
      decide (([] : List Measurement).length +
        ([] : List Measurement).length < 2)) ∧
    (Part000.collect_all_air_quality_data [] [] []).data =
      (if ([] : List Measurement).length + ([] : List Measurement).length < 2
        then [] ++ [] ++ [] else [] ++ []) :=
  claim_C2_fallback [] [] []

/-- C5: if every source adapter fails (non-success status, transport
failure, or exception, including the Tempo scraping fallback failing),
then each adapter of either variant returns the empty sequence, the
aggregation of that cycle returns the empty sequence, and the scheduler
worker still performs that cycle and all the following ones. -/
theorem claim_C5_resilience (g f1 : Fetch IQAirResponse)
    (f2 : Fetch (Option (List Part000.OpenAQStation)))
    (f3 : Fetch (Option (List Part000.TempoStation)))
    (city country : String)
    (hg : g.failed) (h1 : f1.failed) (h2 : f2.failed) (h3 : f3.failed) :
    Final.get_iqair_city_data g city country = [] ∧
    Part000.get_iqair_data f1 = [] ∧
    Part000.get_openaq_data f2 = [] ∧
    Part000.get_tempo_iku_data f3 none = [] ∧
    (Part000.run_cycle ⟨f1, f2, f3, none⟩).data = [] ∧
    ∀ (n : ℕ) (rest : List Part000.CycleInput),
      (Part000.auto_update_worker n (⟨f1, f2, f3, none⟩ :: rest)).1 =
        n + 1 + rest.length := by
  have e1 := part000_get_iqair_data_failed f1 h1
  have e2 := part000_get_openaq_data_failed f2 h2
  have e3 := part000_get_tempo_iku_data_failed f3 h3
  refine ⟨final_get_iqair_city_data_failed g city country hg, e1, e2, e3,
    ?_, ?_⟩
  · show (Part000.collect_all_air_quality_data (Part000.get_iqair_data f1)
      (Part000.get_openaq_data f2)
      (Part000.get_tempo_iku_data f3 none)).data = []
    rw [e1, e2, e3]
    rfl
  · intro n rest
    rw [auto_update_worker_count, List.length_cons]
    omega

/-- C5 (witness): the resilience conclusions at concrete failing
outcomes. -/
theorem claim_C5_resilience_witness :
    Final.get_iqair_city_data .network_error "New York" "USA" = [] ∧
    Part000.get_iqair_data (.response 500 ⟨false, {}, ""⟩) = [] ∧
    Part000.get_openaq_data .unexpected_error = [] ∧
    Part000.get_tempo_iku_data .network_error none = [] ∧
    (Part000.run_cycle ⟨.response 500 ⟨false, {}, ""⟩, .unexpected_error,
      .network_error, none⟩).data = [] ∧
    (Part000.auto_update_worker 0 [⟨.response 500 ⟨false, {}, ""⟩,
      .unexpected_error, .network_error, none⟩]).1 =
      0 + 1 + ([] : List Part000.CycleInput).length := by
  obtain ⟨a, b, c, d, e, f⟩ := claim_C5_resilience .network_error
    (.response 500 ⟨false, {}, ""⟩) .unexpected_error .network_error
    "New York" "USA" trivial (show (500 : ℕ) ≠ 200 by decide) trivial trivial
  exact ⟨a, b, c, d, e, f 0 []⟩

/-- C7 (counterexample): the CO2 estimator of `final.py` sets its rating
directly: for Vancouver at hour 3 the measurement carries the rating
EXCELLENT, which is outside the closed rating set, and differs from what
the classifier would derive for CO2 at that value (GOOD). -/
theorem claim_C7_counterexample :
    (Final.get_co2_estimation "Vancouver" 3).rating = "EXCELLENT" ∧
    "EXCELLENT" ∉ allowed_ratings ∧
    (get_health_rating Final.HEALTH_THRESHOLDS "CO2"
      (Final.get_co2_estimation "Vancouver" 3).value).1 = "GOOD" := by
  refine ⟨?_, by decide, ?_⟩
  · norm_num [Final.get_co2_estimation, Final.city_adjustments]
  have hv : (Final.get_co2_estimation "Vancouver" 3).value = 430 := by
    norm_num [Final.get_co2_estimation, Final.city_adjustments]
  rw [hv, get_health_rating_some Final.HEALTH_THRESHOLDS "CO2"
    ⟨450, 600, 1000, "ppm", "Excellent - fresh outdoor air",
      "Moderate - typical urban levels", "Poor - elevated CO2 levels"⟩
    _ rfl]
  norm_num

/-- C7 (amended): every measurement built by the source adapters'
processing functions (IQAir in both variants, OpenAQ, Tempo API, Tempo
scraping) carries a rating derived by `get_health_rating` from its own
pollutant and value and lying in the closed set {GOOD, MODERATE,
UNHEALTHY, VERY UNHEALTHY, UNKNOWN}; the CO2 estimator instead sets its
rating directly from {EXCELLENT, GOOD, MODERATE, POOR}. -/
theorem claim_C7_derived :
    (∀ (resp : IQAirResponse) (city country : String) (m : Measurement),
      m ∈ Final.process_iqair_response resp city country →
        derived_ok Final.HEALTH_THRESHOLDS m) ∧
    (∀ (resp : IQAirResponse) (m : Measurement),
      m ∈ Part000.process_iqair_data resp →
        derived_ok Part000.HEALTH_THRESHOLDS m) ∧
    (∀ (body : Option (List Part000.OpenAQStation)) (m : Measurement),
      m ∈ Part000.process_openaq_data body →
        derived_ok Part000.HEALTH_THRESHOLDS m) ∧
    (∀ (body : Option (List Part000.TempoStation)) (m : Measurement),
      m ∈ Part000.process_tempo_data body →
        derived_ok Part000.HEALTH_THRESHOLDS m) ∧
    (∀ (page : Option (List ℚ)) (m : Measurement),
      m ∈ Part000.scrape_tempo_website page →
        derived_ok Part000.HEALTH_THRESHOLDS m) ∧
    (∀ (city : String) (hour : ℕ),
      (Final.get_co2_estimation city hour).rating ∈
        ["EXCELLENT", "GOOD", "MODERATE", "POOR"]) := by
  refine ⟨?_, ?_, process_openaq_data_derived, process_tempo_data_derived,
    scrape_tempo_website_derived, co2_rating_mem⟩
  · intro resp city country m hm
    rcases process_iqair_response_mem resp city country m hm with
      ⟨_, rfl⟩ | ⟨_, rfl⟩ | ⟨_, rfl⟩ <;> exact rated_derived_ok _ _ _ _ _ _
  · intro resp m hm
    rcases process_iqair_data_mem resp m hm with ⟨_, rfl⟩ | h | h | h | h
    · exact rated_derived_ok _ _ _ _ _ _
    all_goals
      obtain ⟨v, _, _, rfl⟩ := iqair_other_mem _ _ _ m h
      exact rated_derived_ok _ _ _ _ _ _

/-- C7 (witness): the derived-rating invariant on a concrete IQAir
response carrying AQI 75. -/
theorem claim_C7_derived_witness :
    derived_ok Final.HEALTH_THRESHOLDS
      (rated Final.HEALTH_THRESHOLDS "PM2_5" (Final.aqi_to_pm25 75) "μg/m³"
        ("IQAir - " ++ "New York" ++ ", " ++ "USA") (some 75)) :=
  claim_C7_derived.1 ⟨true, { aqius := some 75 }, ""⟩ "New York" "USA" _
    (by
      have hlist : Final.process_iqair_response
          ⟨true, { aqius := some 75 }, ""⟩ "New York" "USA" =
          [rated Final.HEALTH_THRESHOLDS "PM2_5" (Final.aqi_to_pm25 75)
            "μg/m³" ("IQAir - " ++ "New York" ++ ", " ++ "USA") (some 75)] := by
        norm_num [Final.process_iqair_response, truthy]
      rw [hlist]
      exact List.mem_singleton.mpr rfl)

/-- C8 (counterexample): a provider response carrying the negative O3
reading -5 makes the `final.py` adapter emit a measurement whose value is
-5, violating the claimed non-negativity. -/
theorem claim_C8_counterexample :
    (Final.process_iqair_response ⟨true, { o3 := some (-5) }, ""⟩ "New York"
      "USA").map Measurement.value = [-5] ∧ (-5 : ℚ) < 0 := by
  constructor
  · norm_num [Final.process_iqair_response, truthy, rated]
  · norm_num

/-- C8 (amended): every measurement of the `part_000` IQAir adapter has a
positive value, and in `final.py` the index-derived PM2.5 value is
positive; the `final.py` O3 entries instead carry the provider's raw
(possibly negative) reading unchanged. -/
theorem claim_C8_values (resp : IQAirResponse) (city country : String)
    (m : Measurement) :
    (m ∈ Part000.process_iqair_data resp → 0 < m.value) ∧
    (m ∈ Final.process_iqair_response resp city country →
      m.pollutant = "PM2_5" → 0 < m.value) ∧
    (m ∈ Final.process_iqair_response resp city country →
      m.pollutant = "O3" → resp.pollution.o3 = some m.value) := by
  refine ⟨?_, ?_, ?_⟩
  · intro hm
    rcases process_iqair_data_mem resp m hm with ⟨ha, rfl⟩ | h | h | h | h
    · exact part000_aqi_pos _ ha
    all_goals
      obtain ⟨v, _, hv, rfl⟩ := iqair_other_mem _ _ _ m h
      exact hv
  · intro hm hp
    rcases process_iqair_response_mem resp city country m hm with
      ⟨ha, rfl⟩ | ⟨_, rfl⟩ | ⟨_, rfl⟩
    · exact final_aqi_pos _ ha
    · simp [rated] at hp
    · simp [rated] at hp
  · intro hm hp
    rcases process_iqair_response_mem resp city country m hm with
      ⟨_, rfl⟩ | ⟨ht, rfl⟩ | ⟨_, rfl⟩
    · simp [rated] at hp
    · cases ho : resp.pollution.o3 with
      | none => rw [ho] at ht; simp [truthy] at ht
      | some v => rfl
    · simp [rated] at hp

/-- C8 (witness): positivity of the value of the PM2.5 measurement the
`part_000` adapter builds from AQI 75. -/
theorem claim_C8_values_witness :
    0 < (rated Part000.HEALTH_THRESHOLDS "PM2_5" (Part000.aqi_to_pm25 75)
      (units_of Part000.HEALTH_THRESHOLDS "PM2_5") ("IQAir - " ++ "Jakarta")
      (some 75)).value :=
  (claim_C8_values ⟨true, { aqius := some 75 }, "Jakarta"⟩ "c" "d" _).1
    (by
      have hlist : Part000.process_iqair_data
          ⟨true, { aqius := some 75 }, "Jakarta"⟩ =
          [rated Part000.HEALTH_THRESHOLDS "PM2_5" (Part000.aqi_to_pm25 75)
            (units_of Part000.HEALTH_THRESHOLDS "PM2_5")
            ("IQAir - " ++ "Jakarta") (some 75)] := by
        norm_num [Part000.process_iqair_data, Part000.iqair_other]
      rw [hlist]
      exact List.mem_singleton.mpr rfl)

/-- C10: provided the response carries the data/current envelope, the
IQAir adapters of both variants emit a PM2.5 measurement exactly when the
`aqius` field is present and positive (a missing field defaults to 0); no
zero-concentration reading is fabricated otherwise. -/
theorem claim_C10_index_derived (resp : IQAirResponse) (city country : String)
    (hd : resp.hasData = true) :
    ((∃ m ∈ Final.process_iqair_response resp city country,
        m.pollutant = "PM2_5") ↔ 0 < resp.pollution.aqius.getD 0) ∧
    ((∃ m ∈ Part000.process_iqair_data resp, m.pollutant = "PM2_5") ↔
      0 < resp.pollution.aqius.getD 0) := by
  constructor
  · constructor
    · rintro ⟨m, hm, hp⟩
      rcases process_iqair_response_mem resp city country m hm with
        ⟨ha, rfl⟩ | ⟨_, rfl⟩ | ⟨_, rfl⟩
      · exact ha
      · simp [rated] at hp
      · simp [rated] at hp
    · intro ha
      refine ⟨rated Final.HEALTH_THRESHOLDS "PM2_5"
        (Final.aqi_to_pm25 (resp.pollution.aqius.getD 0)) "μg/m³"
        ("IQAir - " ++ city ++ ", " ++ country)
        (some (resp.pollution.aqius.getD 0)), ?_, rfl⟩
      unfold Final.process_iqair_response
      rw [if_pos hd]
      exact List.mem_append_left _ (List.mem_append_left _
        (by rw [if_pos ha]; exact List.mem_singleton.mpr rfl))
  · constructor
    · rintro ⟨m, hm, hp⟩
      rcases process_iqair_data_mem resp m hm with ⟨ha, rfl⟩ | h | h | h | h
      · exact ha
      all_goals
        obtain ⟨v, _, _, rfl⟩ := iqair_other_mem _ _ _ m h
        simp [rated] at hp
    · intro ha
      refine ⟨rated Part000.HEALTH_THRESHOLDS "PM2_5"
        (Part000.aqi_to_pm25 (resp.pollution.aqius.getD 0))
        (units_of Part000.HEALTH_THRESHOLDS "PM2_5")
        ("IQAir - " ++ resp.city)
        (some (resp.pollution.aqius.getD 0)), ?_, rfl⟩
      unfold Part000.process_iqair_data
      rw [if_pos hd]
      exact List.mem_append_left _ (List.mem_append_left _
        (List.mem_append_left _ (List.mem_append_left _
          (by rw [if_pos ha]; exact List.mem_singleton.mpr rfl))))

/-- C10 (witness): AQI 75 yields a PM2.5 measurement; AQI 0 yields none. -/
theorem claim_C10_index_derived_witness :
    (∃ m ∈ Final.process_iqair_response ⟨true, { aqius := some 75 }, ""⟩
      "New York" "USA", m.pollutant = "PM2_5") ∧
    ¬ (∃ m ∈ Final.process_iqair_response ⟨true, { aqius := some 0 }, ""⟩
      "New York" "USA", m.pollutant = "PM2_5") :=
  ⟨(claim_C10_index_derived ⟨true, { aqius := some 75 }, ""⟩ "New York" "USA"
      rfl).1.mpr (by norm_num),
   fun hex => absurd ((claim_C10_index_derived ⟨true, { aqius := some 0 }, ""⟩
      "New York" "USA" rfl).1.mp hex) (by norm_num)⟩

end SkyShield
